import Mathlib

/-!
Verification of `modules/planning/optimizer/qp_spline_st_speed/qp_spline_st_boundary_mapper.cc`
(class `QpSplineStBoundaryMapper`).

Shallow embedding conventions:
* C++ `double` values are modelled as exact rationals (`ℚ`).
* `apollo::common::Status` carries only its error code; status messages never
  influence control flow in the translated code, so they are dropped.
* Nullable pointers (`Obstacle*`, the output vector pointer) are modelled with
  `Option`.
* The two nested `for` loops of `map_obstacle_with_prediction_trajectory` are
  modelled with an explicit fuel parameter (the source's inner loop increments
  the outer counter `i` instead of its own counter `j`, so the loop need not
  terminate; `none` means the fuel was exhausted without the function
  returning).
* Ambient singletons (`VehicleState::instance()->timestamp()`,
  `DataCenter::instance()->map()`), the configuration accessors
  (`st_boundary_config()`, `vehicle_param()`, the `FLAGS_*` gflags) and the
  base-class geometric helper `check_overlap` are fields of the mapper
  structure, injected explicitly.
-/

/-- `apollo::common::Status`, reduced to its error code.  The source uses
`Status::OK()`, `Status(ErrorCode::PLANNING_ERROR, …)` and
`Status(ErrorCode::PLANNING_SKIP, …)`; messages are dropped because no
comparison in the translated code distinguishes two statuses with the same
code. -/
inductive Status
  | OK
  | PLANNING_ERROR
  | PLANNING_SKIP
deriving DecidableEq, Repr

/-- `Status::ok()`: true exactly for the `OK` code. -/
def Status.ok : Status → Bool
  | .OK => true
  | _ => false

/-- `StGraphBoundary::BoundaryType` (the enum values used by this file plus
`OVERTAKE`, which the enum provides but the mapper never assigns). -/
inductive BoundaryType
  | STOP
  | FOLLOW
  | YIELD
  | OVERTAKE
  | UNKNOWN
deriving DecidableEq, Repr

/-- `STPoint`: a station/time pair. -/
structure STPoint where
  s : ℚ
  t : ℚ
deriving DecidableEq, Repr

instance : Inhabited STPoint := ⟨⟨0, 0⟩⟩

/-- `StGraphBoundary`: the vertex list plus the attributes set through
`set_boundary_type` / `set_characteristic_length`.  A freshly constructed
boundary has type `UNKNOWN` and characteristic length `0`. -/
structure StGraphBoundary where
  points : List STPoint
  boundary_type : BoundaryType := .UNKNOWN
  characteristic_length : ℚ := 0
deriving DecidableEq, Repr

instance : Inhabited StGraphBoundary := ⟨⟨[], .UNKNOWN, 0⟩⟩

/-- `apollo::common::PathPoint` as used by the mapper: planar pose plus the
accumulated station `s`. -/
structure PathPoint where
  x : ℚ
  y : ℚ
  theta : ℚ
  s : ℚ
deriving DecidableEq, Repr

instance : Inhabited PathPoint := ⟨⟨0, 0, 0, 0⟩⟩

/-- The `path_point()` carried by a predicted trajectory point. -/
structure TrajPathPoint where
  x : ℚ
  y : ℚ
  theta : ℚ
deriving DecidableEq, Repr

instance : Inhabited TrajPathPoint := ⟨⟨0, 0, 0⟩⟩

/-- `apollo::common::TrajectoryPoint`: the fields read by the mapper. -/
structure TrajectoryPoint where
  path_point : TrajPathPoint
  relative_time : ℚ
deriving DecidableEq, Repr

instance : Inhabited TrajectoryPoint := ⟨⟨default, 0⟩⟩

/-- One predicted trajectory of an obstacle: start timestamp plus the ordered
trajectory points. -/
structure PredictionTrajectory where
  start_timestamp : ℚ
  trajectory_points : List TrajectoryPoint
deriving DecidableEq, Repr

instance : Inhabited PredictionTrajectory := ⟨⟨0, []⟩⟩

/-- `PredictionTrajectory::num_of_points`. -/
def PredictionTrajectory.num_of_points (tr : PredictionTrajectory) : ℕ :=
  tr.trajectory_points.length

/-- `PredictionTrajectory::trajectory_point_at` (total model: out-of-range
access yields the default point; the source never goes out of range because
the index is bounded by `num_of_points`). -/
def PredictionTrajectory.trajectory_point_at (tr : PredictionTrajectory)
    (j : ℕ) : TrajectoryPoint :=
  tr.trajectory_points.getD j default

/-- `ObjectFollow` payload. -/
structure ObjectFollow where
  distance_s : ℚ
deriving DecidableEq, Repr

/-- `ObjectYield` payload. -/
structure ObjectYield where
  distance_s : ℚ
deriving DecidableEq, Repr

/-- `ObjectOvertake` payload. -/
structure ObjectOvertake where
  distance_s : ℚ
deriving DecidableEq, Repr

/-- `ObjectDecisionType`: the decision kinds the mapper probes with
`has_follow` / `has_yield` / `has_overtake`; `other` stands for every
remaining kind (the inner decision loop ignores those). -/
inductive ObjectDecisionType
  | follow (d : ObjectFollow)
  | yield (d : ObjectYield)
  | overtake (d : ObjectOvertake)
  | other
deriving DecidableEq, Repr

/-- `ObjectDecisionType::has_follow`. -/
def ObjectDecisionType.has_follow : ObjectDecisionType → Bool
  | .follow _ => true
  | _ => false

/-- `ObjectDecisionType::has_yield`. -/
def ObjectDecisionType.has_yield : ObjectDecisionType → Bool
  | .yield _ => true
  | _ => false

/-- `ObjectDecisionType::has_overtake`. -/
def ObjectDecisionType.has_overtake : ObjectDecisionType → Bool
  | .overtake _ => true
  | _ => false

/-- `Obstacle`: the accessors used by the mapper (`Speed`, `Length`, `Width`,
`prediction_trajectories`, `Decisions`). -/
structure Obstacle where
  Speed : ℚ
  Length : ℚ
  Width : ℚ
  prediction_trajectories : List PredictionTrajectory
  Decisions : List ObjectDecisionType
deriving Repr

/-- The stop line reference inside `MainStop` (`enforced_line()`): lane id and
arc-length offset along that lane. -/
structure EnforcedLine where
  lane_id : ℕ
  distance_s : ℚ
deriving DecidableEq, Repr

/-- `MainStop` main decision payload. -/
structure MainStop where
  enforced_line : EnforcedLine
deriving DecidableEq, Repr

/-- The scene's main decision, probed via `has_stop` / `has_mission_complete`;
`other` covers the remaining kinds (no builder is invoked for them). -/
inductive MainDecision
  | stop (m : MainStop)
  | mission_complete
  | other
deriving DecidableEq, Repr

/-- `DecisionData`: main decision plus the two obstacle collections.  The
collections hold nullable pointers, hence `Option Obstacle` entries. -/
structure DecisionData where
  main_decision : MainDecision
  StaticObstacles : List (Option Obstacle)
  DynamicObstacles : List (Option Obstacle)

/-- The planning `Path` class: the ordered path points.  (Named
`PlanningPath` here because `Path` is taken by the ambient library.) -/
structure PlanningPath where
  path_points : List PathPoint
deriving DecidableEq, Repr

/-- `Path::num_of_points`. -/
def PlanningPath.num_of_points (p : PlanningPath) : ℕ := p.path_points.length

/-- `PathData` (the mapper only reads `path_data.path()`). -/
structure PathData where
  path : PlanningPath
deriving DecidableEq, Repr

/-- `apollo::common::math::Vec2d` (only constructed and passed along). -/
structure Vec2d where
  x : ℚ
  y : ℚ
deriving DecidableEq, Repr

/-- `apollo::common::SLPoint`: Frenet coordinates. -/
structure SLPoint where
  s : ℚ
  l : ℚ
deriving DecidableEq, Repr

/-- `ReferenceLine`: total length plus the fallible Cartesian→Frenet
projection `get_point_in_Frenet_frame` (modelled as an `Option`-returning
field; its geometric implementation lives outside this translation unit). -/
structure ReferenceLine where
  length : ℚ
  get_point_in_Frenet_frame : Vec2d → Option SLPoint

/-- `apollo::common::math::Box2d` as constructed by the mapper: center,
heading, length, width.  Only its data is needed here; the geometric overlap
test consuming it is the abstract `check_overlap` field of the mapper. -/
structure Box2d where
  center_x : ℚ
  center_y : ℚ
  heading : ℚ
  length : ℚ
  width : ℚ
deriving DecidableEq, Repr

/-- The named numeric parameters read through `st_boundary_config()`. -/
structure StBoundaryConfig where
  boundary_buffer : ℚ
  follow_buffer : ℚ
  point_extension : ℚ
  expending_coeff : ℚ
  minimal_follow_time : ℚ
  success_tunnel : ℚ
deriving DecidableEq, Repr

/-- The vehicle geometry read through
`VehicleConfigHelper::GetConfig().vehicle_param()` / `vehicle_param()`. -/
structure VehicleParam where
  front_edge_to_center : ℚ
deriving DecidableEq, Repr

/-- The `FLAGS_*` gflags read by the mapper. -/
structure Flags where
  backward_routing_distance : ℚ
  decision_valid_stop_range : ℚ
deriving DecidableEq, Repr

/-- Modelled from the spec: `Double::compare` (from
`modules/planning/math/double.h`, outside `src/`), a three-way comparison of
doubles, here taken as the exact three-way comparison on `ℚ`. -/
def doubleCompare (a b : ℚ) : ℤ :=
  if a < b then -1 else if b < a then 1 else 0

/-- Cyclic cross-product sum of an ordered vertex list (`first` closes the
polygon): `Σ (pᵢ.s * pᵢ₊₁.t − pᵢ₊₁.s * pᵢ.t)`. -/
def crossSum (first : STPoint) : List STPoint → ℚ
  | [] => 0
  | [p] => p.s * first.t - first.s * p.t
  | p :: q :: rest => (p.s * q.t - q.s * p.t) + crossSum first (q :: rest)

/-- Modelled from the spec: the geometry utility `get_area` (declared in the
mapper's header, outside `src/`) — "signed-area computation over an ordered
vertex sequence; used everywhere to reject degenerate or self-inverted
boundary polygons".  The magnitude of the shoelace sum is used: the spec's §8
scenarios require both the stop builder's clockwise-ordered quadrilateral and
the mission-complete builder's counterclockwise-ordered quadrilateral to pass
the strictly-positive-area gate, so the gate can only be orientation
independent; degenerate (zero-area) polygons still yield `0` and are
rejected. -/
def get_area (pts : List STPoint) : ℚ :=
  match pts with
  | [] => 0
  | p :: _ => |crossSum p pts| / 2

/-- The mapper object: configuration accessors, vehicle geometry, gflags, and
the ambient collaborators used by the translated member functions.
`check_overlap` is the base-class geometric test (vehicle footprint at a path
point, expanded by a buffer, against an obstacle box) whose implementation
lives outside `src/`; it is kept abstract because no translated control path
depends on its internals.  `map_lookup` models
`DataCenter::instance()->map().get_lane_by_id(…)->get_smooth_point(…)`, the
map-service resolution of a stop line to a 2D point.
`vehicle_state_timestamp` models `VehicleState::instance()->timestamp()`. -/
structure QpSplineStBoundaryMapper where
  st_boundary_config : StBoundaryConfig
  vehicle_param : VehicleParam
  flags : Flags
  check_overlap : PathPoint → VehicleParam → Box2d → ℚ → Bool
  map_lookup : MainStop → Vec2d
  vehicle_state_timestamp : ℚ

/-- `QpSplineStBoundaryMapper::map_main_decision_stop` (source lines
141–195).  Resolves the stop line to a map point, projects it into the
Frenet frame (failure is fatal), shifts by the backward routing distance,
computes `stop_rear_center_s`, and — only when `stop_rear_center_s` is not
negative — skips if the stop line lies beyond the reachable horizon.
Otherwise it builds the full-horizon stop quadrilateral and appends it when
its area is strictly positive. -/
def QpSplineStBoundaryMapper.map_main_decision_stop
    (B : QpSplineStBoundaryMapper) (main_stop : MainStop)
    (reference_line : ReferenceLine)
    (planning_distance planning_time : ℚ)
    (boundary : List StGraphBoundary) : Status × List StGraphBoundary :=
  let map_point := B.map_lookup main_stop
  match reference_line.get_point_in_Frenet_frame map_point with
  | none => (.PLANNING_ERROR, boundary)
  | some sl_point0 =>
    let sl_s := sl_point0.s - B.flags.backward_routing_distance
    let stop_rear_center_s := sl_s - B.flags.decision_valid_stop_range -
      B.vehicle_param.front_edge_to_center
    let s_min := if stop_rear_center_s > 0 then stop_rear_center_s else 0
    let s_max := max (s_min + 1)
      (max planning_distance reference_line.length)
    let boundary_points : List STPoint :=
      [⟨s_min, 0⟩, ⟨s_min, planning_time⟩,
       ⟨s_max + B.st_boundary_config.boundary_buffer, planning_time⟩,
       ⟨s_max, 0⟩]
    let build : Status × List StGraphBoundary :=
      if doubleCompare (get_area boundary_points) 0 ≤ 0 then
        (.PLANNING_SKIP, boundary)
      else
        (.OK, boundary ++
          [{ points := boundary_points
             boundary_type := .STOP
             characteristic_length := B.st_boundary_config.boundary_buffer }])
    if doubleCompare stop_rear_center_s 0 < 0 then
      build
    else if stop_rear_center_s ≥
        reference_line.length - B.flags.backward_routing_distance then
      (.PLANNING_SKIP, boundary)
    else
      build

/-- `QpSplineStBoundaryMapper::map_mission_complete` (source lines 205–230):
the success-tunnel quadrilateral, appended (tagged `STOP`) when its area is
strictly positive. -/
def QpSplineStBoundaryMapper.map_mission_complete
    (B : QpSplineStBoundaryMapper) (reference_line : ReferenceLine)
    (planning_distance planning_time : ℚ)
    (boundary : List StGraphBoundary) : Status × List StGraphBoundary :=
  let s_min := B.st_boundary_config.success_tunnel
  let s_max := min planning_distance
    (reference_line.length - B.flags.backward_routing_distance)
  let boundary_points : List STPoint :=
    [⟨s_min, 0⟩, ⟨s_max, 0⟩,
     ⟨s_max + B.st_boundary_config.boundary_buffer, planning_time⟩,
     ⟨s_min, planning_time⟩]
  if doubleCompare (get_area boundary_points) 0 ≤ 0 then
    (.PLANNING_SKIP, boundary)
  else
    (.OK, boundary ++
      [{ points := boundary_points
         boundary_type := .STOP
         characteristic_length := B.st_boundary_config.boundary_buffer }])

/-- `QpSplineStBoundaryMapper::map_obstacle_with_planning` (source lines
197–203): a defined extension point, currently a no-op returning `OK`. -/
def QpSplineStBoundaryMapper.map_obstacle_with_planning
    (B : QpSplineStBoundaryMapper) (initial_planning_point : TrajectoryPoint)
    (obstacle : Obstacle) (path_data : PathData)
    (planning_distance planning_time : ℚ)
    (boundary : List StGraphBoundary) : Status × List StGraphBoundary :=
  (.OK, boundary)

/-- `QpSplineStBoundaryMapper::map_obstacle_without_trajectory` (source lines
374–380): a defined extension point, currently a no-op returning `OK`. -/
def QpSplineStBoundaryMapper.map_obstacle_without_trajectory
    (B : QpSplineStBoundaryMapper) (initial_planning_point : TrajectoryPoint)
    (obstacle : Obstacle) (path_data : PathData)
    (planning_distance planning_time : ℚ)
    (boundary : List StGraphBoundary) : Status × List StGraphBoundary :=
  (.OK, boundary)

/-- The converging bidirectional index scan of
`map_obstacle_with_prediction_trajectory` (source lines 272–296): the
`while (low < high)` loop advancing `low` and retreating `high` until each
has found an overlapping path index or the indices cross.  `co idx` is the
`check_overlap` test at path index `idx`.  Returns the final
`(low, high, find_low, find_high)`. -/
def overlap_scan (co : ℕ → Bool) (low high : ℕ) (find_low find_high : Bool) :
    ℕ × ℕ × Bool × Bool :=
  if hlt : low < high then
    if find_low && find_high then
      (low, high, find_low, find_high)
    else
      match find_low, find_high with
      | false, false =>
        match co low, co high with
        | false, false => overlap_scan co (low + 1) (high - 1) false false
        | false, true => overlap_scan co (low + 1) high false true
        | true, false => overlap_scan co low (high - 1) true false
        | true, true => overlap_scan co low high true true
      | false, true =>
        match co low with
        | false => overlap_scan co (low + 1) high false true
        | true => overlap_scan co low high true true
      | true, false =>
        match co high with
        | false => overlap_scan co low (high - 1) true false
        | true => overlap_scan co low high true true
      | true, true => (low, high, true, true)
  else
    (low, high, find_low, find_high)
termination_by
  (high - low) + (if find_low then 0 else 1) + (if find_high then 0 else 1)
decreasing_by
  all_goals simp_all
  all_goals omega

/-- The mutable loop state of `map_obstacle_with_prediction_trajectory`:
the running lower/upper envelope lists, the `skip` flag, and the output
boundary vector. -/
structure DynState where
  lower_points : List STPoint
  upper_points : List STPoint
  skip : Bool
  boundary : List StGraphBoundary
deriving Repr

/-- The boundary-synthesis block of
`map_obstacle_with_prediction_trajectory` (source lines 310–367), executed
whenever `lower_points` is non-empty: rebuild the four `boundary_points`
from the first and last envelope entries, apply the decision-specific
adjustment, set the boundary type, and append when the area is strictly
positive (which also clears the `skip` flag). -/
def build_append (B : QpSplineStBoundaryMapper)
    (obj_decision : ObjectDecisionType) (follow_distance : ℚ)
    (lower_points upper_points : List STPoint) (skip : Bool)
    (boundary : List StGraphBoundary) : Bool × List StGraphBoundary :=
  let buffer := B.st_boundary_config.follow_buffer
  let bp0 : STPoint :=
    ⟨(lower_points.headD default).s - buffer, (lower_points.headD default).t⟩
  let bp1 : STPoint :=
    ⟨(lower_points.getLastD default).s - buffer,
     (lower_points.getLastD default).t⟩
  let bp2 : STPoint :=
    ⟨(upper_points.getLastD default).s + buffer +
       B.st_boundary_config.boundary_buffer,
     (upper_points.getLastD default).t⟩
  let bp3 : STPoint :=
    ⟨(upper_points.headD default).s + buffer, (upper_points.headD default).t⟩
  let adj : List STPoint × BoundaryType :=
    match obj_decision with
    | .follow _ =>
      ([⟨bp0.s - follow_distance, bp0.t⟩, ⟨bp1.s - follow_distance, bp1.t⟩,
        bp2, ⟨bp3.s, -1⟩], .FOLLOW)
    | .yield y =>
      let dis := |y.distance_s|
      let q0s := if bp0.s - dis < 0 then max (bp0.s - 2) 0
        else max (bp0.s - dis) 0
      let q1s := if bp1.s - dis < 0 then max (q0s - 4) 0
        else max (q0s - dis) 0
      ([⟨q0s, bp0.t⟩, ⟨q1s, bp1.t⟩, bp2, bp3], .YIELD)
    | .overtake o =>
      let dis := |o.distance_s|
      ([bp0, bp1, ⟨bp2.s + dis, bp2.t⟩, ⟨bp3.s + dis, bp3.t⟩], .UNKNOWN)
    | .other => ([bp0, bp1, bp2, bp3], .UNKNOWN)
  if doubleCompare (get_area adj.1) 0 > 0 then
    (false, boundary ++ [{ points := adj.1, boundary_type := adj.2 }])
  else
    (skip, boundary)

/-- One execution of the inner loop body of
`map_obstacle_with_prediction_trajectory` (source lines 261–367) for
trajectory `traj` at sample index `j`: compute the sample time and the
expanded obstacle box, run the bidirectional overlap scan, append one
lower/upper envelope sample when both searches succeeded, and, when the
lower envelope is non-empty, run the boundary-synthesis block. -/
def iter_body (B : QpSplineStBoundaryMapper) (path_points : List PathPoint)
    (obstacle : Obstacle) (obj_decision : ObjectDecisionType)
    (follow_distance : ℚ) (traj : PredictionTrajectory) (j : ℕ)
    (st : DynState) : DynState :=
  let trajectory_point := traj.trajectory_point_at j
  let trajectory_point_time := trajectory_point.relative_time +
    traj.start_timestamp - B.vehicle_state_timestamp
  let obs_box : Box2d :=
    ⟨trajectory_point.path_point.x, trajectory_point.path_point.y,
     trajectory_point.path_point.theta,
     obstacle.Length * B.st_boundary_config.expending_coeff,
     obstacle.Width * B.st_boundary_config.expending_coeff⟩
  let scan := overlap_scan
    (fun idx => B.check_overlap (path_points.getD idx default)
      B.vehicle_param obs_box B.st_boundary_config.boundary_buffer)
    0 (path_points.length - 1) false false
  let low := scan.1
  let high := scan.2.1
  let find_low := scan.2.2.1
  let find_high := scan.2.2.2
  let st1 : DynState :=
    if find_high && find_low then
      { st with
        lower_points := st.lower_points ++
          [⟨(path_points.getD low default).s -
              B.st_boundary_config.point_extension, trajectory_point_time⟩]
        upper_points := st.upper_points ++
          [⟨(path_points.getD high default).s +
              B.st_boundary_config.point_extension, trajectory_point_time⟩] }
    else
      st
  if 0 < st1.lower_points.length then
    let r := build_append B obj_decision follow_distance
      st1.lower_points st1.upper_points st1.skip st1.boundary
    { st1 with skip := r.1, boundary := r.2 }
  else
    st1

mutual

/-- The outer trajectory loop of
`map_obstacle_with_prediction_trajectory` (source line 258):
`for (uint32_t i = 0; i < trajectories.size(); ++i)`.  `fuel` bounds the
number of loop iterations executed; `none` means the function did not return
within `fuel` iterations. -/
def dyn_outer (B : QpSplineStBoundaryMapper) (path_points : List PathPoint)
    (obstacle : Obstacle) (obj_decision : ObjectDecisionType)
    (follow_distance : ℚ) :
    ℕ → ℕ → DynState → Option (Status × List StGraphBoundary)
  | 0, _, _ => none
  | fuel + 1, i, st =>
    if i < obstacle.prediction_trajectories.length then
      dyn_inner B path_points obstacle obj_decision follow_distance fuel
        (obstacle.prediction_trajectories.getD i default) i 0 st
    else
      some (if st.skip then .PLANNING_SKIP else .OK, st.boundary)

/-- The inner per-trajectory-point loop (source line 260):
`for (uint32_t j = 0; j < trajectory.num_of_points(); ++i)`.  Faithful to
the source, each iteration increments the OUTER counter `i` (modulo 2³²,
`i` being `uint32_t`) while `j` is never incremented; when the loop exits
(only possible with `j ≥ num_of_points`, i.e. an empty trajectory), control
returns to the outer loop after its own `++i`. -/
def dyn_inner (B : QpSplineStBoundaryMapper) (path_points : List PathPoint)
    (obstacle : Obstacle) (obj_decision : ObjectDecisionType)
    (follow_distance : ℚ) :
    ℕ → PredictionTrajectory → ℕ → ℕ → DynState →
      Option (Status × List StGraphBoundary)
  | 0, _, _, _, _ => none
  | fuel + 1, traj, i, j, st =>
    if j < traj.num_of_points then
      dyn_inner B path_points obstacle obj_decision follow_distance fuel
        traj ((i + 1) % 4294967296) j
        (iter_body B path_points obstacle obj_decision follow_distance traj
          j st)
    else
      dyn_outer B path_points obstacle obj_decision follow_distance fuel
        ((i + 1) % 4294967296) st

end

/-- `QpSplineStBoundaryMapper::map_obstacle_with_prediction_trajectory`
(source lines 232–372): computes `follow_distance` for Follow decisions,
then runs the nested trajectory/sample loops starting from empty envelopes,
`skip = true` and the caller's boundary vector; the result is
`PLANNING_SKIP` when no iteration appended a boundary, else `OK`. -/
def QpSplineStBoundaryMapper.map_obstacle_with_prediction_trajectory
    (B : QpSplineStBoundaryMapper) (fuel : ℕ)
    (initial_planning_point : TrajectoryPoint) (obstacle : Obstacle)
    (obj_decision : ObjectDecisionType) (path_data : PathData)
    (planning_distance planning_time : ℚ)
    (boundary : List StGraphBoundary) :
    Option (Status × List StGraphBoundary) :=
  let follow_distance : ℚ :=
    match obj_decision with
    | .follow f =>
      max (obstacle.Speed * B.st_boundary_config.minimal_follow_time)
        |f.distance_s| + B.vehicle_param.front_edge_to_center
    | _ => -1
  dyn_outer B path_data.path.path_points obstacle obj_decision
    follow_distance fuel 0 ⟨[], [], true, boundary⟩

/-- Result of translating one of the orchestrator's obstacle loops:
either the enclosing function returned early (`early`), or the loop ran to
completion leaving the boundary vector in the given state (`done`). -/
inductive LoopOut
  | early (st : Status) (boundary : List StGraphBoundary)
  | done (boundary : List StGraphBoundary)
deriving Repr

/-- The static-obstacle loop of `get_graph_boundary` (source lines 96–108):
null entries are skipped; each obstacle goes through
`map_obstacle_without_trajectory`, any failure returning
`PLANNING_ERROR` for the whole call. -/
def static_loop (B : QpSplineStBoundaryMapper)
    (initial_planning_point : TrajectoryPoint) (path_data : PathData)
    (planning_distance planning_time : ℚ)
    (boundary : List StGraphBoundary) :
    List (Option Obstacle) → LoopOut
  | [] => .done boundary
  | none :: rest =>
    static_loop B initial_planning_point path_data planning_distance
      planning_time boundary rest
  | some obs :: rest =>
    let r := B.map_obstacle_without_trajectory initial_planning_point obs
      path_data planning_distance planning_time boundary
    if r.1.ok then
      static_loop B initial_planning_point path_data planning_distance
        planning_time r.2 rest
    else
      .early .PLANNING_ERROR r.2

/-- The per-obstacle decision loop of `get_graph_boundary` (source lines
115–136): Follow decisions go through `map_obstacle_with_planning` (failure
is fatal); Yield/Overtake decisions go through
`map_obstacle_with_prediction_trajectory`, and on any non-OK result the
whole call returns `Status::OK()` ("Return OK by intention."). -/
def decision_loop (B : QpSplineStBoundaryMapper) (fuel : ℕ)
    (initial_planning_point : TrajectoryPoint) (obs : Obstacle)
    (path_data : PathData) (planning_distance planning_time : ℚ)
    (boundary : List StGraphBoundary) :
    List ObjectDecisionType → Option LoopOut
  | [] => some (.done boundary)
  | d :: rest =>
    if d.has_follow then
      let r := B.map_obstacle_with_planning initial_planning_point obs
        path_data planning_distance planning_time boundary
      if r.1.ok then
        decision_loop B fuel initial_planning_point obs path_data
          planning_distance planning_time r.2 rest
      else
        some (.early .PLANNING_ERROR r.2)
    else if d.has_overtake || d.has_yield then
      match B.map_obstacle_with_prediction_trajectory fuel
        initial_planning_point obs d path_data planning_distance
        planning_time boundary with
      | none => none
      | some r =>
        if r.1.ok then
          decision_loop B fuel initial_planning_point obs path_data
            planning_distance planning_time r.2 rest
        else
          some (.early .OK r.2)
    else
      decision_loop B fuel initial_planning_point obs path_data
        planning_distance planning_time boundary rest

/-- The dynamic-obstacle loop of `get_graph_boundary` (source lines
110–137): null entries are skipped; each obstacle's decisions run through
`decision_loop`. -/
def dynamic_loop (B : QpSplineStBoundaryMapper) (fuel : ℕ)
    (initial_planning_point : TrajectoryPoint) (path_data : PathData)
    (planning_distance planning_time : ℚ)
    (boundary : List StGraphBoundary) :
    List (Option Obstacle) → Option LoopOut
  | [] => some (.done boundary)
  | none :: rest =>
    dynamic_loop B fuel initial_planning_point path_data planning_distance
      planning_time boundary rest
  | some obs :: rest =>
    match decision_loop B fuel initial_planning_point obs path_data
      planning_distance planning_time boundary obs.Decisions with
    | none => none
    | some (.early st b) => some (.early st b)
    | some (.done b) =>
      dynamic_loop B fuel initial_planning_point path_data planning_distance
        planning_time b rest

/-- The body of `get_graph_boundary` after its precondition checks (source
lines 77–138): clear the output vector, dispatch the main decision to the
stop or mission-complete builder (a Skip is tolerated, any other non-OK
result is fatal), then run the static- and dynamic-obstacle loops. -/
def get_graph_boundary_body (B : QpSplineStBoundaryMapper) (fuel : ℕ)
    (initial_planning_point : TrajectoryPoint)
    (decision_data : DecisionData) (path_data : PathData)
    (reference_line : ReferenceLine)
    (planning_distance planning_time : ℚ) :
    Option (Status × List StGraphBoundary) :=
  let b0 : List StGraphBoundary := []
  let main_step : Status × List StGraphBoundary :=
    match decision_data.main_decision with
    | .stop ms =>
      B.map_main_decision_stop ms reference_line planning_distance
        planning_time b0
    | .mission_complete =>
      B.map_mission_complete reference_line planning_distance planning_time
        b0
    | .other => (.OK, b0)
  if main_step.1 ≠ .OK ∧ main_step.1 ≠ .PLANNING_SKIP then
    some (.PLANNING_ERROR, main_step.2)
  else
    match static_loop B initial_planning_point path_data planning_distance
      planning_time main_step.2 decision_data.StaticObstacles with
    | .early st b => some (st, b)
    | .done b1 =>
      match dynamic_loop B fuel initial_planning_point path_data
        planning_distance planning_time b1
        decision_data.DynamicObstacles with
      | none => none
      | some (.early st b) => some (st, b)
      | some (.done b) => some (.OK, b)

/-- Possible outcomes of a full `get_graph_boundary` call: a returned status
together with the contents of the (possibly null) output vector, or a crash
from dereferencing a null output pointer. -/
inductive Outcome
  | ret (st : Status) (obs_boundary : Option (List StGraphBoundary))
  | crash
deriving Repr

/-- `QpSplineStBoundaryMapper::get_graph_boundary` (source lines 51–139).
The three precondition checks run first, in source order.  Faithful to the
source, the first check is `if (obs_boundary)` — it reports the
"obs_boundary is NULL." error precisely when the output pointer is
NON-null, and otherwise falls through; a call that passes all three checks
therefore holds a null pointer and crashes at `obs_boundary->clear()`. -/
def QpSplineStBoundaryMapper.get_graph_boundary
    (B : QpSplineStBoundaryMapper) (fuel : ℕ)
    (initial_planning_point : TrajectoryPoint)
    (decision_data : DecisionData) (path_data : PathData)
    (reference_line : ReferenceLine)
    (planning_distance planning_time : ℚ)
    (obs_boundary : Option (List StGraphBoundary)) : Option Outcome :=
  match obs_boundary with
  | some b => some (.ret .PLANNING_ERROR (some b))
  | none =>
    if planning_time < 0 then
      some (.ret .PLANNING_ERROR none)
    else if path_data.path.num_of_points < 2 then
      some (.ret .PLANNING_ERROR none)
    else
      some .crash

/-- A concrete configuration for witnesses: `boundary_buffer = 1`,
`follow_buffer = 0`, `point_extension = 1`, `expending_coeff = 1`,
`minimal_follow_time = 1`, `success_tunnel = 1`. -/
def cfg0 : StBoundaryConfig := ⟨1, 0, 1, 1, 1, 1⟩

/-- Concrete vehicle geometry: front overhang 1. -/
def vp0 : VehicleParam := ⟨1⟩

/-- Concrete gflags: `backward_routing_distance = 5`,
`decision_valid_stop_range = 1`. -/
def flags0 : Flags := ⟨5, 1⟩

/-- A concrete mapper for witnesses; its overlap test never fires and its
map lookup resolves every stop line to the origin. -/
def B0 : QpSplineStBoundaryMapper :=
  ⟨cfg0, vp0, flags0, fun _ _ _ _ => false, fun _ => ⟨0, 0⟩, 0⟩

/-- A concrete initial planning point (never read by the translated code). -/
def ipp0 : TrajectoryPoint := default

/-- A two-point path. -/
def path2 : PathData := ⟨⟨[⟨0, 0, 0, 0⟩, ⟨1, 0, 0, 1⟩]⟩⟩

/-- A reference line of length 100 whose Frenet projection puts the stop
line at station 50 ("stop line 50 units ahead"). -/
def rl100 : ReferenceLine := ⟨100, fun _ => some ⟨50, 0⟩⟩

/-- A concrete main stop decision. -/
def ms0 : MainStop := ⟨⟨0, 50⟩⟩

/-- `doubleCompare … < 0` means the first argument is smaller. -/
theorem doubleCompare_lt_iff (a b : ℚ) : doubleCompare a b < 0 ↔ a < b := by
  rcases lt_trichotomy a b with h | h | h
  · simp [doubleCompare, h]
  · subst h; simp [doubleCompare]
  · simp [doubleCompare, h, h.asymm]

/-- `doubleCompare … ≤ 0` means the first argument is not larger. -/
theorem doubleCompare_nonpos_iff (a b : ℚ) : doubleCompare a b ≤ 0 ↔ a ≤ b := by
  rcases lt_trichotomy a b with h | h | h
  · simp [doubleCompare, h, h.le]
  · subst h; simp [doubleCompare]
  · simp [doubleCompare, h, h.asymm, not_le.mpr h]

/-- `0 < doubleCompare …` means the first argument is larger. -/
theorem doubleCompare_pos_iff (a b : ℚ) : 0 < doubleCompare a b ↔ b < a := by
  rcases lt_trichotomy a b with h | h | h
  · simp [doubleCompare, h, h.asymm]
  · subst h; simp [doubleCompare]
  · simp [doubleCompare, h, h.asymm]

/-- The source's `(x > 0.0 ? x : 0.0)` clamp equals `max x 0`. -/
theorem sel_pos_eq_max (a : ℚ) : (if a > 0 then a else 0) = max a 0 := by
  split_ifs with h
  · exact (max_eq_left h.le).symm
  · exact (max_eq_right (not_lt.mp h)).symm

/-- Claim C1 (code bug).  The claim states that a call with a non-null output
container, non-negative planning time and a two-point path does not fail with
a precondition error, while a null container fails cleanly.  The source's
first check is `if (obs_boundary)` — inverted — so the code does the
opposite: the valid call below (non-null empty container, `planning_time =
3`, two path points) immediately returns `PLANNING_ERROR` (with the message
"obs_boundary is NULL."), and the same call with a null container passes all
three checks and crashes dereferencing the null pointer at
`obs_boundary->clear()`. -/
theorem c1_precondition_null_check_inverted :
    B0.get_graph_boundary 10 ipp0 ⟨.other, [], []⟩ path2 rl100 60 3
      (some []) = some (.ret .PLANNING_ERROR (some [])) ∧
    B0.get_graph_boundary 10 ipp0 ⟨.other, [], []⟩ path2 rl100 60 3 none =
      some .crash := by
  constructor
  · rfl
  · norm_num [QpSplineStBoundaryMapper.get_graph_boundary, path2,
      PlanningPath.num_of_points]

/-- Claim C7 (confirmed).  Whenever `map_main_decision_stop` returns `OK`
(i.e. it neither failed projection nor skipped), the output is the input
list plus exactly one `STOP`-tagged quadrilateral with vertices
`(s_min, 0)`, `(s_min, T)`, `(s_max + boundary_buffer, T)`, `(s_max, 0)`,
where `s_min = max(stop_rear_center_s, 0)` and
`s_max = max(s_min + 1, max(planning_distance, reference_line.length))`,
with `stop_rear_center_s = projected_s − backward_routing_distance −
decision_valid_stop_range − front_edge_to_center`. -/
theorem c7_stop_builder_appends_quadrilateral
    (B : QpSplineStBoundaryMapper) (ms : MainStop) (rl : ReferenceLine)
    (planning_distance planning_time : ℚ) (bdy out : List StGraphBoundary)
    (sl : SLPoint)
    (hfr : rl.get_point_in_Frenet_frame (B.map_lookup ms) = some sl)
    (h : B.map_main_decision_stop ms rl planning_distance planning_time bdy =
      (.OK, out)) :
    out = bdy ++
      [⟨[⟨max (sl.s - B.flags.backward_routing_distance -
            B.flags.decision_valid_stop_range -
            B.vehicle_param.front_edge_to_center) 0, 0⟩,
         ⟨max (sl.s - B.flags.backward_routing_distance -
            B.flags.decision_valid_stop_range -
            B.vehicle_param.front_edge_to_center) 0, planning_time⟩,
         ⟨max (max (sl.s - B.flags.backward_routing_distance -
              B.flags.decision_valid_stop_range -
              B.vehicle_param.front_edge_to_center) 0 + 1)
            (max planning_distance rl.length) +
            B.st_boundary_config.boundary_buffer, planning_time⟩,
         ⟨max (max (sl.s - B.flags.backward_routing_distance -
              B.flags.decision_valid_stop_range -
              B.vehicle_param.front_edge_to_center) 0 + 1)
            (max planning_distance rl.length), 0⟩],
        .STOP, B.st_boundary_config.boundary_buffer⟩] := by
  simp only [QpSplineStBoundaryMapper.map_main_decision_stop, hfr] at h
  rw [sel_pos_eq_max] at h
  split_ifs at h <;> simp only [Prod.mk.injEq] at h <;>
    first
      | exact h.2.symm
      | exact absurd h.1 (by simp)

/-- The boundary emitted in the spec's stop scenario (`s_min = 43`,
`s_max = 100`, buffer 1, horizon 3). -/
def stopOut0 : List StGraphBoundary :=
  [⟨[⟨43, 0⟩, ⟨43, 3⟩, ⟨101, 3⟩, ⟨100, 0⟩], .STOP, 1⟩]

/-- Witness for C7, at the spec's scenario: stop line projected at station
50, `backward_routing_distance = 5`, `decision_valid_stop_range = 1`,
`front_overhang = 1`, planning distance 60, reference length 100 — the
builder returns `OK` and appends the quadrilateral with
`s_min = max(50 − 5 − 1 − 1, 0) = 43` and `s_max = max(44, max(60, 100)) =
100`. -/
theorem c7_stop_builder_appends_quadrilateral_witness :
    B0.map_main_decision_stop ms0 rl100 60 3 [] = (Status.OK, stopOut0) ∧
    stopOut0 = [] ++
      [⟨[⟨max ((50:ℚ) - 5 - 1 - 1) 0, 0⟩,
         ⟨max ((50:ℚ) - 5 - 1 - 1) 0, 3⟩,
         ⟨max (max ((50:ℚ) - 5 - 1 - 1) 0 + 1) (max 60 100) + 1, 3⟩,
         ⟨max (max ((50:ℚ) - 5 - 1 - 1) 0 + 1) (max 60 100), 0⟩],
        .STOP, 1⟩] := by
  have h0 : B0.map_main_decision_stop ms0 rl100 60 3 [] =
      (Status.OK, stopOut0) := by
    norm_num [QpSplineStBoundaryMapper.map_main_decision_stop, B0, cfg0, vp0,
      flags0, ms0, rl100, doubleCompare, get_area, crossSum, stopOut0]
  refine ⟨h0, ?_⟩
  have h1 := c7_stop_builder_appends_quadrilateral B0 ms0 rl100 60 3 []
    stopOut0 ⟨50, 0⟩ rfl h0
  rw [h1]
  norm_num [B0, cfg0, flags0, vp0, rl100]

/-- A reference line of length 1 whose Frenet projection yields station 4:
with `backward_routing_distance = 5` this makes `stop_rear_center_s`
negative while still at or beyond `length − backward_routing_distance`. -/
def rlC8 : ReferenceLine := ⟨1, fun _ => some ⟨4, 0⟩⟩

/-- Counterexample to claim C8 as stated.  Here `stop_rear_center_s =
4 − 5 − 1 − 1 = −3` satisfies the claim's premise
`stop_rear_center_s ≥ reference_line.length − backward_routing_distance`
(`= 1 − 5 = −4`), so the claim demands a Skip with no boundary appended; but
because `stop_rear_center_s` is negative the source only logs and never
reaches the horizon check, builds the quadrilateral with `s_min = 0`, and
returns `OK` having appended it. -/
theorem c8_negative_stop_skip_counterexample :
    ((4:ℚ) - 5 - 1 - 1 ≥ rlC8.length - B0.flags.backward_routing_distance) ∧
    B0.map_main_decision_stop ms0 rlC8 60 3 [] =
      (Status.OK,
        [⟨[⟨0, 0⟩, ⟨0, 3⟩, ⟨61, 3⟩, ⟨60, 0⟩], BoundaryType.STOP, 1⟩]) ∧
    Status.OK ≠ Status.PLANNING_SKIP := by
  refine ⟨by norm_num [rlC8, B0, flags0], ?_, by simp⟩
  norm_num [QpSplineStBoundaryMapper.map_main_decision_stop, B0, cfg0, vp0,
    flags0, ms0, rlC8, doubleCompare, get_area, crossSum]

/-- Claim C8 (amended).  The horizon Skip holds only when
`stop_rear_center_s` is additionally non-negative: for every stop-builder
invocation with `stop_rear_center_s ≥ 0` and `stop_rear_center_s ≥
reference_line.length − backward_routing_distance`, the result is Skip and
no boundary is appended.  (When `stop_rear_center_s < 0` the horizon check
is bypassed — see the counterexample.) -/
theorem c8_horizon_skip_amended (B : QpSplineStBoundaryMapper)
    (ms : MainStop) (rl : ReferenceLine)
    (planning_distance planning_time : ℚ) (bdy : List StGraphBoundary)
    (sl : SLPoint)
    (hfr : rl.get_point_in_Frenet_frame (B.map_lookup ms) = some sl)
    (hnonneg : 0 ≤ sl.s - B.flags.backward_routing_distance -
      B.flags.decision_valid_stop_range -
      B.vehicle_param.front_edge_to_center)
    (hhor : sl.s - B.flags.backward_routing_distance -
        B.flags.decision_valid_stop_range -
        B.vehicle_param.front_edge_to_center ≥
      rl.length - B.flags.backward_routing_distance) :
    B.map_main_decision_stop ms rl planning_distance planning_time bdy =
      (.PLANNING_SKIP, bdy) := by
  simp only [QpSplineStBoundaryMapper.map_main_decision_stop, hfr]
  rw [if_neg (by rw [doubleCompare_lt_iff]; exact not_lt.mpr hnonneg),
    if_pos hhor]

/-- A reference line of length 100 whose Frenet projection yields station
200 (stop line far beyond the horizon). -/
def rl200 : ReferenceLine := ⟨100, fun _ => some ⟨200, 0⟩⟩

/-- Witness for the amended C8: `stop_rear_center_s = 200 − 5 − 1 − 1 = 193 ≥
0` and `193 ≥ 100 − 5`, so the builder skips and appends nothing. -/
theorem c8_horizon_skip_amended_witness :
    B0.map_main_decision_stop ms0 rl200 60 3 [] =
      (Status.PLANNING_SKIP, []) :=
  c8_horizon_skip_amended B0 ms0 rl200 60 3 [] ⟨200, 0⟩ rfl
    (by norm_num [B0, flags0, vp0]) (by norm_num [B0, flags0, vp0, rl200])

/-- Claim C9 (confirmed).  Every boundary appended by the mission-complete
builder is tagged `STOP` — there is no mission-complete-specific tag. -/
theorem c9_mission_complete_tagged_stop (B : QpSplineStBoundaryMapper)
    (rl : ReferenceLine) (planning_distance planning_time : ℚ)
    (bdy : List StGraphBoundary) (st : Status)
    (out : List StGraphBoundary)
    (h : B.map_mission_complete rl planning_distance planning_time bdy =
      (st, out)) :
    ∀ b ∈ out, b ∈ bdy ∨ b.boundary_type = .STOP := by
  intro b hb
  simp only [QpSplineStBoundaryMapper.map_mission_complete] at h
  split_ifs at h <;> simp only [Prod.mk.injEq] at h
  · rw [← h.2] at hb
    exact Or.inl hb
  · rw [← h.2] at hb
    rcases List.mem_append.mp hb with hm | hm
    · exact Or.inl hm
    · right
      simp only [List.mem_singleton] at hm
      subst hm
      rfl

/-- The boundary emitted by the mission-complete builder in the witness run
(`success_tunnel = 1`, planning distance 50, length 100, buffer 1,
horizon 3). -/
def mcOut0 : StGraphBoundary := ⟨[⟨1, 0⟩, ⟨50, 0⟩, ⟨51, 3⟩, ⟨1, 3⟩], .STOP, 1⟩

/-- Witness for C9 at a concrete run that really appends a boundary: the
appended boundary is tagged `STOP`. -/
theorem c9_mission_complete_tagged_stop_witness :
    mcOut0 ∈ ([] : List StGraphBoundary) ∨ mcOut0.boundary_type = .STOP :=
  c9_mission_complete_tagged_stop B0 rl100 50 3 [] .OK [mcOut0]
    (by norm_num [QpSplineStBoundaryMapper.map_mission_complete, B0, cfg0,
      vp0, flags0, rl100, doubleCompare, get_area, crossSum, mcOut0])
    mcOut0 (by simp)

/-- The boundary type the synthesis block of
`map_obstacle_with_prediction_trajectory` assigns for each decision:
`b_type` starts as `UNKNOWN`, the Follow and Yield branches overwrite it,
and the Overtake branch (source lines 355–359) does not. -/
def decisionTag : ObjectDecisionType → BoundaryType
  | .follow _ => .FOLLOW
  | .yield _ => .YIELD
  | .overtake _ => .UNKNOWN
  | .other => .UNKNOWN

/-- `build_append` either appends exactly one boundary — tagged
`decisionTag` of the decision, with strictly positive area — while clearing
the skip flag, or leaves the state untouched. -/
theorem build_append_cases (B : QpSplineStBoundaryMapper)
    (d : ObjectDecisionType) (fd : ℚ) (lower upper : List STPoint)
    (sk : Bool) (bdy : List StGraphBoundary) :
    (∃ pts, build_append B d fd lower upper sk bdy =
        (false, bdy ++ [⟨pts, decisionTag d, 0⟩]) ∧ 0 < get_area pts) ∨
    build_append B d fd lower upper sk bdy = (sk, bdy) := by
  rcases d with f | y | o | _ <;>
    simp only [build_append, decisionTag] <;>
    split_ifs with h1 h2 h3 <;>
    first
      | exact Or.inr rfl
      | exact Or.inl ⟨_, rfl, (doubleCompare_pos_iff _ _).mp (by assumption)⟩

/-- Counterexample to claim C5 as stated.  With `follow_buffer = 0`, lower
envelope `[(5,0), (5,1)]`, upper envelope `[(10,0), (10,1)]` and a Yield
decision with `dis = 3`: the claim computes both lower vertices from `v0`'s
pre-adjustment value `5`, predicting `v1.s = max(5 − 3, 0) = 2`; the code
first rewrites `v0.s` to `max(5 − 3, 0) = 2` and then computes `v1.s =
max(v0.s_updated − dis, 0) = max(2 − 3, 0) = 0` — the appended boundary's
second vertex is `(0, 1)`, not `(2, 1)`. -/
theorem c5_yield_vertex_recompute_counterexample :
    build_append B0 (.yield ⟨3⟩) (-1) [⟨5, 0⟩, ⟨5, 1⟩] [⟨10, 0⟩, ⟨10, 1⟩]
      true [] =
      (false, [⟨[⟨2, 0⟩, ⟨0, 1⟩, ⟨11, 1⟩, ⟨10, 0⟩], .YIELD, 0⟩]) ∧
    (if (5:ℚ) - 3 < 0 then max ((5:ℚ) - 2) 0 else max ((5:ℚ) - 3) 0) = 2 ∧
    (2:ℚ) ≠ 0 := by
  refine ⟨?_, by norm_num, by norm_num⟩
  norm_num [build_append, B0, cfg0, vp0, flags0, doubleCompare, get_area,
    crossSum]

/-- Claim C5 (amended).  In the Yield adjustment with
`dis = |decision.distance_s|`: the first lower vertex becomes
`max(v0.s − 2, 0)` if `v0.s − dis < 0`, else `max(v0.s − dis, 0)`; the
second lower vertex is tested against its OWN pre-adjustment value
(`v1.s − dis < 0`) but recomputed from `v0`'s ALREADY-ADJUSTED value, with
fallback constant `4` rather than `2`: it becomes `max(v0' − 4, 0)` if
`v1.s − dis < 0`, else `max(v0' − dis, 0)`, where `v0'` is the updated
first vertex.  (Vertices here are the pre-adjustment values
`lower[0].s − follow_buffer` and `lower[last].s − follow_buffer`.) -/
theorem c5_yield_adjustment_amended (B : QpSplineStBoundaryMapper)
    (y : ObjectYield) (follow_distance : ℚ) (lower upper : List STPoint)
    (sk : Bool) (bdy : List StGraphBoundary) (b : StGraphBoundary)
    (h : (build_append B (.yield y) follow_distance lower upper sk bdy).2 =
      bdy ++ [b]) :
    b.points.getD 0 default =
      ⟨(if (lower.headD default).s - B.st_boundary_config.follow_buffer -
            |y.distance_s| < 0 then
          max ((lower.headD default).s -
            B.st_boundary_config.follow_buffer - 2) 0
        else
          max ((lower.headD default).s -
            B.st_boundary_config.follow_buffer - |y.distance_s|) 0),
       (lower.headD default).t⟩ ∧
    b.points.getD 1 default =
      ⟨(if (lower.getLastD default).s - B.st_boundary_config.follow_buffer -
            |y.distance_s| < 0 then
          max ((if (lower.headD default).s -
                B.st_boundary_config.follow_buffer - |y.distance_s| < 0 then
              max ((lower.headD default).s -
                B.st_boundary_config.follow_buffer - 2) 0
            else
              max ((lower.headD default).s -
                B.st_boundary_config.follow_buffer - |y.distance_s|) 0) - 4) 0
        else
          max ((if (lower.headD default).s -
                B.st_boundary_config.follow_buffer - |y.distance_s| < 0 then
              max ((lower.headD default).s -
                B.st_boundary_config.follow_buffer - 2) 0
            else
              max ((lower.headD default).s -
                B.st_boundary_config.follow_buffer - |y.distance_s|) 0) -
            |y.distance_s|) 0),
       (lower.getLastD default).t⟩ ∧
    b.boundary_type = .YIELD := by
  simp only [build_append] at h
  split_ifs at h with h1 h2 h3
  all_goals
    first
      | (replace h : bdy ++ _ = bdy ++ [b] := h
         have hb := List.append_cancel_left h
         simp only [List.cons.injEq, and_true] at hb
         subst hb
         refine ⟨?_, ?_, rfl⟩ <;>
           (simp only [List.getD_cons_zero, List.getD_cons_succ]
            split_ifs <;> first | rfl | contradiction))
      | (replace h : bdy = bdy ++ [b] := h
         exact absurd h (by simp))

/-- Witness for the amended C5 at a concrete appending run
(`follow_buffer = 0`, lower `[(5,0), (9,2)]`, upper `[(12,0), (14,2)]`,
`dis = 3`): `v0.s = 5 ↦ max(5 − 3, 0) = 2` and `v1.s = 9`, tested on its own
value (`9 − 3 ≥ 0`), becomes `max(2 − 3, 0) = 0` from the updated `v0`. -/
theorem c5_yield_adjustment_amended_witness :
    (⟨[⟨2, 0⟩, ⟨0, 2⟩, ⟨15, 2⟩, ⟨12, 0⟩], .YIELD, 0⟩ :
        StGraphBoundary).points.getD 0 default = ⟨2, 0⟩ ∧
    (⟨[⟨2, 0⟩, ⟨0, 2⟩, ⟨15, 2⟩, ⟨12, 0⟩], .YIELD, 0⟩ :
        StGraphBoundary).points.getD 1 default = ⟨0, 2⟩ ∧
    (⟨[⟨2, 0⟩, ⟨0, 2⟩, ⟨15, 2⟩, ⟨12, 0⟩], .YIELD, 0⟩ :
        StGraphBoundary).boundary_type = .YIELD := by
  have h := c5_yield_adjustment_amended B0 ⟨3⟩ (-1) [⟨5, 0⟩, ⟨9, 2⟩]
    [⟨12, 0⟩, ⟨14, 2⟩] true [] ⟨[⟨2, 0⟩, ⟨0, 2⟩, ⟨15, 2⟩, ⟨12, 0⟩], .YIELD, 0⟩
    (by norm_num [build_append, B0, cfg0, vp0, doubleCompare, get_area,
      crossSum])
  refine ⟨?_, ?_, ?_⟩
  · rw [h.1]; norm_num [B0, cfg0]
  · rw [h.2.1]; norm_num [B0, cfg0]
  · exact h.2.2

/-- Counterexample to claim C6 as stated.  A concrete Overtake run that
really appends a boundary: the appended boundary is tagged `UNKNOWN`, not
`OVERTAKE` — the Overtake branch never assigns `b_type`. -/
theorem c6_overtake_tagged_unknown_counterexample :
    build_append B0 (.overtake ⟨1⟩) (-1) [⟨5, 0⟩, ⟨6, 2⟩] [⟨10, 0⟩, ⟨11, 2⟩]
      true [] =
      (false, [⟨[⟨5, 0⟩, ⟨6, 2⟩, ⟨13, 2⟩, ⟨11, 0⟩], .UNKNOWN, 0⟩]) ∧
    BoundaryType.UNKNOWN ≠ BoundaryType.OVERTAKE := by
  refine ⟨?_, by simp⟩
  norm_num [build_append, B0, cfg0, vp0, doubleCompare, get_area, crossSum]

/-- Claim C6 (amended).  Every boundary appended by the synthesis block of
the dynamic boundary builder is tagged `decisionTag` of the decision that
produced it: `FOLLOW` for Follow, `YIELD` for Yield, but `UNKNOWN` (not
`OVERTAKE`) for Overtake. -/
theorem c6_boundary_tag_amended (B : QpSplineStBoundaryMapper)
    (d : ObjectDecisionType) (fd : ℚ) (lower upper : List STPoint)
    (sk : Bool) (bdy : List StGraphBoundary) (b : StGraphBoundary)
    (h : (build_append B d fd lower upper sk bdy).2 = bdy ++ [b]) :
    b.boundary_type = decisionTag d := by
  rcases build_append_cases B d fd lower upper sk bdy with ⟨pts, heq, _⟩ | heq
  · rw [heq] at h
    have hb : [(⟨pts, decisionTag d, 0⟩ : StGraphBoundary)] = [b] :=
      List.append_cancel_left h
    simp only [List.cons.injEq, and_true] at hb
    rw [← hb]
  · rw [heq] at h
    exact absurd h (by simp)

/-- Witness for the amended C6 at a concrete Follow run that appends: the
boundary is tagged `FOLLOW = decisionTag (follow …)`. -/
theorem c6_boundary_tag_amended_witness :
    (⟨[⟨3, 0⟩, ⟨4, 2⟩, ⟨12, 2⟩, ⟨10, -1⟩], .FOLLOW, 0⟩ :
        StGraphBoundary).boundary_type = decisionTag (.follow ⟨1⟩) :=
  c6_boundary_tag_amended B0 (.follow ⟨1⟩) 2 [⟨5, 0⟩, ⟨6, 2⟩]
    [⟨10, 0⟩, ⟨11, 2⟩] true [] ⟨[⟨3, 0⟩, ⟨4, 2⟩, ⟨12, 2⟩, ⟨10, -1⟩],
      .FOLLOW, 0⟩
    (by norm_num [build_append, B0, cfg0, vp0, doubleCompare, get_area,
      crossSum])

/-- Unfolding `map_obstacle_with_prediction_trajectory` for a Yield
decision (`follow_distance = −1`). -/
theorem map_pred_yield_unfold (B : QpSplineStBoundaryMapper) (fuel : ℕ)
    (ipp : TrajectoryPoint) (obstacle : Obstacle) (yy : ObjectYield)
    (pathd : PathData) (pd pt : ℚ) (bdy : List StGraphBoundary) :
    B.map_obstacle_with_prediction_trajectory fuel ipp obstacle (.yield yy)
      pathd pd pt bdy =
    dyn_outer B pathd.path.path_points obstacle (.yield yy) (-1) fuel 0
      ⟨[], [], true, bdy⟩ := rfl

/-- Unfolding `map_obstacle_with_prediction_trajectory` for an Overtake
decision (`follow_distance = −1`). -/
theorem map_pred_overtake_unfold (B : QpSplineStBoundaryMapper) (fuel : ℕ)
    (ipp : TrajectoryPoint) (obstacle : Obstacle) (oo : ObjectOvertake)
    (pathd : PathData) (pd pt : ℚ) (bdy : List StGraphBoundary) :
    B.map_obstacle_with_prediction_trajectory fuel ipp obstacle
      (.overtake oo) pathd pd pt bdy =
    dyn_outer B pathd.path.path_points obstacle (.overtake oo) (-1) fuel 0
      ⟨[], [], true, bdy⟩ := rfl

/-- Unfolding `map_obstacle_with_prediction_trajectory` for a Follow
decision (computed `follow_distance`). -/
theorem map_pred_follow_unfold (B : QpSplineStBoundaryMapper) (fuel : ℕ)
    (ipp : TrajectoryPoint) (obstacle : Obstacle) (f : ObjectFollow)
    (pathd : PathData) (pd pt : ℚ) (bdy : List StGraphBoundary) :
    B.map_obstacle_with_prediction_trajectory fuel ipp obstacle (.follow f)
      pathd pd pt bdy =
    dyn_outer B pathd.path.path_points obstacle (.follow f)
      (max (obstacle.Speed * B.st_boundary_config.minimal_follow_time)
        |f.distance_s| + B.vehicle_param.front_edge_to_center) fuel 0
      ⟨[], [], true, bdy⟩ := rfl

/-- Unfolding `map_obstacle_with_prediction_trajectory` for any other
decision kind (`follow_distance = −1`). -/
theorem map_pred_other_unfold (B : QpSplineStBoundaryMapper) (fuel : ℕ)
    (ipp : TrajectoryPoint) (obstacle : Obstacle)
    (pathd : PathData) (pd pt : ℚ) (bdy : List StGraphBoundary) :
    B.map_obstacle_with_prediction_trajectory fuel ipp obstacle .other
      pathd pd pt bdy =
    dyn_outer B pathd.path.path_points obstacle .other (-1) fuel 0
      ⟨[], [], true, bdy⟩ := rfl

/-- A one-point prediction trajectory. -/
def traj1 : PredictionTrajectory := ⟨0, [⟨⟨0, 0, 0⟩, 0⟩]⟩

/-- A dynamic obstacle carrying a Yield decision and one one-point
predicted trajectory. -/
def obs1pt : Obstacle := ⟨2, 4, 2, [traj1], [.yield ⟨3⟩]⟩

/-- A dynamic obstacle carrying a Yield decision and NO predicted
trajectories. -/
def obsNoTraj : Obstacle := ⟨2, 4, 2, [], [.yield ⟨3⟩]⟩

/-- A dynamic obstacle carrying an Overtake decision and NO predicted
trajectories. -/
def obsNoTrajO : Obstacle := ⟨2, 4, 2, [], [.overtake ⟨1⟩]⟩

/-- The source's inner loop at `j = 0` over a non-empty trajectory never
returns, for ANY fuel: its increment is `++i` (the outer counter), so the
loop condition `j < num_of_points` never changes. -/
theorem dyn_inner_nonempty_none (B : QpSplineStBoundaryMapper)
    (path_points : List PathPoint) (obstacle : Obstacle)
    (d : ObjectDecisionType) (fd : ℚ) (traj : PredictionTrajectory)
    (hpt : 0 < traj.num_of_points) :
    ∀ (fuel i : ℕ) (st : DynState),
      dyn_inner B path_points obstacle d fd fuel traj i 0 st = none := by
  intro fuel
  induction fuel with
  | zero => intro i st; rfl
  | succ n ih =>
    intro i st
    simp only [dyn_inner]
    rw [if_pos hpt]
    exact ih _ _

/-- Claim C2 (code bug).  The claim says `get_graph_boundary` terminates
with each trajectory point visited at most once.  The source's inner loop
(line 260) is `for (uint32_t j = 0; j < trajectory.num_of_points(); ++i)` —
it increments the OUTER counter, so `j` stays `0` and the loop never exits
once a trajectory has at least one point.  Concretely: for an obstacle with
one one-point predicted trajectory and a Yield decision, the dynamic
builder — and therefore the post-precondition body of
`get_graph_boundary` — fails to return within ANY finite fuel. -/
theorem c2_trajectory_loop_never_terminates :
    ∀ fuel : ℕ,
      B0.map_obstacle_with_prediction_trajectory fuel ipp0 obs1pt
        (.yield ⟨3⟩) path2 60 3 [] = none ∧
      get_graph_boundary_body B0 fuel ipp0 ⟨.other, [], [some obs1pt]⟩ path2
        rl100 60 3 = none := by
  intro fuel
  have hpt : 0 < (obs1pt.prediction_trajectories.getD 0
      default).num_of_points := by
    simp [obs1pt, traj1, PredictionTrajectory.num_of_points]
  have hmap : B0.map_obstacle_with_prediction_trajectory fuel ipp0 obs1pt
      (.yield ⟨3⟩) path2 60 3 [] = none := by
    rw [map_pred_yield_unfold]
    cases fuel with
    | zero => rfl
    | succ n =>
      simp only [dyn_outer]
      rw [if_pos (by simp [obs1pt] :
        0 < obs1pt.prediction_trajectories.length)]
      exact dyn_inner_nonempty_none B0 path2.path.path_points obs1pt
        (.yield ⟨3⟩) (-1) _ hpt n 0 _
  refine ⟨hmap, ?_⟩
  have hdecs : obs1pt.Decisions = [ObjectDecisionType.yield ⟨3⟩] := rfl
  simp only [get_graph_boundary_body, static_loop, dynamic_loop,
    decision_loop, hdecs, ObjectDecisionType.has_follow,
    ObjectDecisionType.has_yield, ObjectDecisionType.has_overtake, hmap]
  simp

/-- Claim C3 (confirmed).  With two dynamic obstacles, the first carrying a
Yield decision whose mapping returns a non-OK status, the
post-precondition body of `get_graph_boundary` returns overall `OK` with
exactly the boundary list produced up to that failure — the second
obstacle is never processed, so its otherwise-valid boundary is absent
(the conclusion does not depend on `obs2` at all). -/
theorem c3_first_obstacle_failure_short_circuits
    (B : QpSplineStBoundaryMapper) (fuel : ℕ)
    (ipp : TrajectoryPoint) (obs1 obs2 : Obstacle) (y : ObjectYield)
    (pathd : PathData) (rl : ReferenceLine) (pd pt : ℚ) (st1 : Status)
    (b1 : List StGraphBoundary)
    (hdec : obs1.Decisions = [.yield y])
    (hmap : B.map_obstacle_with_prediction_trajectory fuel ipp obs1
      (.yield y) pathd pd pt [] = some (st1, b1))
    (hfail : st1.ok = false) :
    get_graph_boundary_body B fuel ipp ⟨.other, [], [some obs1, some obs2]⟩
      pathd rl pd pt = some (.OK, b1) := by
  simp only [get_graph_boundary_body, static_loop, dynamic_loop,
    decision_loop, hdec, ObjectDecisionType.has_follow,
    ObjectDecisionType.has_yield, ObjectDecisionType.has_overtake, hmap,
    hfail]
  simp

/-- Witness for C3: the first obstacle has a Yield decision and zero
predicted trajectories, so its mapping returns `PLANNING_SKIP` (not OK);
the body returns `OK` with an empty boundary list even though a second
obstacle follows. -/
theorem c3_first_obstacle_failure_short_circuits_witness :
    get_graph_boundary_body B0 5 ipp0
      ⟨.other, [], [some obsNoTraj, some obs1pt]⟩ path2 rl100 60 3 =
      some (.OK, []) :=
  c3_first_obstacle_failure_short_circuits B0 5 ipp0 obsNoTraj obs1pt ⟨3⟩
    path2 rl100 60 3 .PLANNING_SKIP [] rfl rfl rfl

/-- Claim C10 (confirmed).  Whenever the dynamic builder returns
`PLANNING_SKIP` for the first Yield or Overtake decision of a dynamic
obstacle, the post-precondition body of `get_graph_boundary` immediately
returns `OK` with the boundary list as of that point: the obstacle's
remaining decisions (`rest_ds`) and all remaining obstacles (`rest_obs`)
are never processed — a benign Skip short-circuits exactly like a fatal
failure. -/
theorem c10_benign_skip_short_circuits (B : QpSplineStBoundaryMapper)
    (fuel : ℕ) (ipp : TrajectoryPoint) (obs : Obstacle)
    (d : ObjectDecisionType) (rest_ds : List ObjectDecisionType)
    (rest_obs : List (Option Obstacle)) (pathd : PathData)
    (rl : ReferenceLine) (pd pt : ℚ) (b1 : List StGraphBoundary)
    (hdec : obs.Decisions = d :: rest_ds)
    (hyo : (∃ yy, d = .yield yy) ∨ (∃ oo, d = .overtake oo))
    (hmap : B.map_obstacle_with_prediction_trajectory fuel ipp obs d pathd
      pd pt [] = some (.PLANNING_SKIP, b1)) :
    get_graph_boundary_body B fuel ipp ⟨.other, [], some obs :: rest_obs⟩
      pathd rl pd pt = some (.OK, b1) := by
  rcases hyo with ⟨yy, rfl⟩ | ⟨oo, rfl⟩ <;>
    (simp only [get_graph_boundary_body, static_loop, dynamic_loop,
      decision_loop, hdec, ObjectDecisionType.has_follow,
      ObjectDecisionType.has_yield, ObjectDecisionType.has_overtake, hmap]
     simp [Status.ok])

/-- Witness for C10: an obstacle with an Overtake decision and zero
predicted trajectories makes the builder return `PLANNING_SKIP`; the body
returns `OK` with nothing appended although another obstacle remains. -/
theorem c10_benign_skip_short_circuits_witness :
    get_graph_boundary_body B0 5 ipp0 ⟨.other, [], [some obsNoTrajO,
      some obs1pt]⟩ path2 rl100 60 3 = some (.OK, []) :=
  c10_benign_skip_short_circuits B0 5 ipp0 obsNoTrajO (.overtake ⟨1⟩) []
    [some obs1pt] path2 rl100 60 3 [] rfl (Or.inr ⟨⟨1⟩, rfl⟩) rfl

/-- `bout` extends `bin` only by boundaries of strictly positive area. -/
def AppendOnlyPos (bin bout : List StGraphBoundary) : Prop :=
  ∀ b ∈ bout, b ∈ bin ∨ 0 < get_area b.points

/-- `AppendOnlyPos` is reflexive. -/
theorem AppendOnlyPos.rfl {a : List StGraphBoundary} : AppendOnlyPos a a :=
  fun _ hb => Or.inl hb

/-- `AppendOnlyPos` is transitive. -/
theorem AppendOnlyPos.trans {a b c : List StGraphBoundary}
    (h1 : AppendOnlyPos a b) (h2 : AppendOnlyPos b c) : AppendOnlyPos a c :=
  fun x hx => (h2 x hx).elim (fun hm => (h1 x hm)) Or.inr

/-- Appending one positive-area boundary preserves `AppendOnlyPos`. -/
theorem AppendOnlyPos.push (bdy : List StGraphBoundary)
    (b : StGraphBoundary) (hpos : 0 < get_area b.points) :
    AppendOnlyPos bdy (bdy ++ [b]) := by
  intro x hx
  rcases List.mem_append.mp hx with hm | hm
  · exact Or.inl hm
  · right
    simp only [List.mem_singleton] at hm
    subst hm
    exact hpos

/-- The synthesis block only ever appends positive-area boundaries. -/
theorem build_append_AppendOnlyPos (B : QpSplineStBoundaryMapper)
    (d : ObjectDecisionType) (fd : ℚ) (lower upper : List STPoint)
    (sk : Bool) (bdy : List StGraphBoundary) :
    AppendOnlyPos bdy (build_append B d fd lower upper sk bdy).2 := by
  rcases build_append_cases B d fd lower upper sk bdy with
    ⟨pts, heq, hpos⟩ | heq <;> rw [heq]
  · exact AppendOnlyPos.push bdy _ hpos
  · exact AppendOnlyPos.rfl

/-- One inner-loop iteration only appends positive-area boundaries. -/
theorem iter_body_AppendOnlyPos (B : QpSplineStBoundaryMapper)
    (path_points : List PathPoint) (obstacle : Obstacle)
    (d : ObjectDecisionType) (fd : ℚ) (traj : PredictionTrajectory) (j : ℕ)
    (st : DynState) :
    AppendOnlyPos st.boundary
      (iter_body B path_points obstacle d fd traj j st).boundary := by
  simp only [iter_body]
  split_ifs <;>
    first
      | exact build_append_AppendOnlyPos B d fd _ _ _ _
      | exact AppendOnlyPos.rfl

/-- Any terminating run of the (fueled) nested trajectory loops only
appends positive-area boundaries, whatever the starting state. -/
theorem dyn_AppendOnlyPos (B : QpSplineStBoundaryMapper)
    (path_points : List PathPoint) (obstacle : Obstacle)
    (d : ObjectDecisionType) (fd : ℚ) :
    ∀ fuel : ℕ,
      (∀ (i : ℕ) (st : DynState) (res : Status × List StGraphBoundary),
        dyn_outer B path_points obstacle d fd fuel i st = some res →
        AppendOnlyPos st.boundary res.2) ∧
      (∀ (traj : PredictionTrajectory) (i j : ℕ) (st : DynState)
        (res : Status × List StGraphBoundary),
        dyn_inner B path_points obstacle d fd fuel traj i j st = some res →
        AppendOnlyPos st.boundary res.2) := by
  intro fuel
  induction fuel with
  | zero =>
    constructor
    · intro i st res h
      exact Option.noConfusion h
    · intro traj i j st res h
      exact Option.noConfusion h
  | succ n ih =>
    constructor
    · intro i st res h
      simp only [dyn_outer] at h
      split_ifs at h with hc hsk
      · exact ih.2 _ _ _ _ _ h
      · simp only [Option.some.injEq] at h
        subst h
        exact AppendOnlyPos.rfl
      · simp only [Option.some.injEq] at h
        subst h
        exact AppendOnlyPos.rfl
    · intro traj i j st res h
      simp only [dyn_inner] at h
      split_ifs at h with hc
      · exact AppendOnlyPos.trans
          (iter_body_AppendOnlyPos B path_points obstacle d fd traj j st)
          (ih.2 _ _ _ _ _ h)
      · exact ih.1 _ _ _ h

/-- The dynamic boundary builder only appends positive-area boundaries. -/
theorem map_pred_AppendOnlyPos (B : QpSplineStBoundaryMapper) (fuel : ℕ)
    (ipp : TrajectoryPoint) (obstacle : Obstacle) (d : ObjectDecisionType)
    (pathd : PathData) (pd pt : ℚ) (bdy : List StGraphBoundary)
    (res : Status × List StGraphBoundary)
    (h : B.map_obstacle_with_prediction_trajectory fuel ipp obstacle d pathd
      pd pt bdy = some res) :
    AppendOnlyPos bdy res.2 := by
  rcases d with f | y | o | _
  · rw [map_pred_follow_unfold] at h
    exact (dyn_AppendOnlyPos B _ obstacle _ _ fuel).1 0 ⟨[], [], true, bdy⟩
      res h
  · rw [map_pred_yield_unfold] at h
    exact (dyn_AppendOnlyPos B _ obstacle _ _ fuel).1 0 ⟨[], [], true, bdy⟩
      res h
  · rw [map_pred_overtake_unfold] at h
    exact (dyn_AppendOnlyPos B _ obstacle _ _ fuel).1 0 ⟨[], [], true, bdy⟩
      res h
  · rw [map_pred_other_unfold] at h
    exact (dyn_AppendOnlyPos B _ obstacle _ _ fuel).1 0 ⟨[], [], true, bdy⟩
      res h

/-- The stop builder only appends positive-area boundaries (its area gate
is `Double::compare(area, 0.0) <= 0 ⇒ Skip`). -/
theorem map_main_decision_stop_AppendOnlyPos (B : QpSplineStBoundaryMapper)
    (ms : MainStop) (rl : ReferenceLine) (pd pt : ℚ)
    (bdy : List StGraphBoundary) (res : Status × List StGraphBoundary)
    (h : B.map_main_decision_stop ms rl pd pt bdy = res) :
    AppendOnlyPos bdy res.2 := by
  cases hfr : rl.get_point_in_Frenet_frame (B.map_lookup ms) with
  | none =>
    simp only [QpSplineStBoundaryMapper.map_main_decision_stop, hfr] at h
    subst h
    exact AppendOnlyPos.rfl
  | some sl =>
    simp only [QpSplineStBoundaryMapper.map_main_decision_stop, hfr] at h
    split_ifs at h with h1 h2 h3 h4 <;> subst h <;>
      first
        | exact AppendOnlyPos.rfl
        | (refine AppendOnlyPos.push bdy _ ?_
           rw [doubleCompare_nonpos_iff, not_le] at *
           assumption)

/-- The mission-complete builder only appends positive-area boundaries. -/
theorem map_mission_complete_AppendOnlyPos (B : QpSplineStBoundaryMapper)
    (rl : ReferenceLine) (pd pt : ℚ) (bdy : List StGraphBoundary)
    (res : Status × List StGraphBoundary)
    (h : B.map_mission_complete rl pd pt bdy = res) :
    AppendOnlyPos bdy res.2 := by
  simp only [QpSplineStBoundaryMapper.map_mission_complete] at h
  split_ifs at h with h1 <;> subst h
  · exact AppendOnlyPos.rfl
  · refine AppendOnlyPos.push bdy _ ?_
    rw [doubleCompare_nonpos_iff, not_le] at h1
    exact h1

/-- The boundary list carried by a loop outcome. -/
def LoopOut.boundary : LoopOut → List StGraphBoundary
  | .early _ b => b
  | .done b => b

/-- The static-obstacle loop never changes the boundary list and never
fails (`map_obstacle_without_trajectory` is a no-op returning OK). -/
theorem static_loop_done (B : QpSplineStBoundaryMapper)
    (ipp : TrajectoryPoint) (pathd : PathData) (pd pt : ℚ)
    (bdy : List StGraphBoundary) :
    ∀ l : List (Option Obstacle),
      static_loop B ipp pathd pd pt bdy l = .done bdy := by
  intro l
  induction l with
  | nil => rfl
  | cons o rest ih =>
    cases o with
    | none => simpa [static_loop] using ih
    | some obs =>
      simpa [static_loop, QpSplineStBoundaryMapper.map_obstacle_without_trajectory,
        Status.ok] using ih

/-- The per-obstacle decision loop only appends positive-area boundaries. -/
theorem decision_loop_AppendOnlyPos (B : QpSplineStBoundaryMapper)
    (fuel : ℕ) (ipp : TrajectoryPoint) (obs : Obstacle) (pathd : PathData)
    (pd pt : ℚ) :
    ∀ (ds : List ObjectDecisionType) (bdy : List StGraphBoundary)
      (lo : LoopOut),
      decision_loop B fuel ipp obs pathd pd pt bdy ds = some lo →
      AppendOnlyPos bdy lo.boundary := by
  intro ds
  induction ds with
  | nil =>
    intro bdy lo h
    simp only [decision_loop, Option.some.injEq] at h
    subst h
    exact AppendOnlyPos.rfl
  | cons d rest ih =>
    intro bdy lo h
    simp only [decision_loop] at h
    split_ifs at h with h1 hok h2
    · -- follow decision, mapping reported OK (it always does)
      exact ih _ lo h
    · -- follow decision, mapping failed (impossible, handled uniformly)
      simp only [Option.some.injEq] at h
      subst h
      exact AppendOnlyPos.rfl
    · -- yield/overtake decision
      cases hm : B.map_obstacle_with_prediction_trajectory fuel ipp obs d
        pathd pd pt bdy with
      | none =>
        simp only [hm] at h
        exact Option.noConfusion h
      | some r =>
        simp only [hm] at h
        have hab := map_pred_AppendOnlyPos B fuel ipp obs d pathd pd pt bdy
          r hm
        split_ifs at h with hok2
        · exact AppendOnlyPos.trans hab (ih r.2 lo h)
        · simp only [Option.some.injEq] at h
          subst h
          exact hab
    · exact ih bdy lo h

/-- The dynamic-obstacle loop only appends positive-area boundaries. -/
theorem dynamic_loop_AppendOnlyPos (B : QpSplineStBoundaryMapper)
    (fuel : ℕ) (ipp : TrajectoryPoint) (pathd : PathData) (pd pt : ℚ) :
    ∀ (l : List (Option Obstacle)) (bdy : List StGraphBoundary)
      (lo : LoopOut),
      dynamic_loop B fuel ipp pathd pd pt bdy l = some lo →
      AppendOnlyPos bdy lo.boundary := by
  intro l
  induction l with
  | nil =>
    intro bdy lo h
    simp only [dynamic_loop, Option.some.injEq] at h
    subst h
    exact AppendOnlyPos.rfl
  | cons o rest ih =>
    intro bdy lo h
    cases o with
    | none =>
      simp only [dynamic_loop] at h
      exact ih bdy lo h
    | some obs =>
      simp only [dynamic_loop] at h
      cases hd : decision_loop B fuel ipp obs pathd pd pt bdy
        obs.Decisions with
      | none => rw [hd] at h; exact Option.noConfusion h
      | some lo1 =>
        rw [hd] at h
        have hab := decision_loop_AppendOnlyPos B fuel ipp obs pathd pd pt
          obs.Decisions bdy lo1 hd
        cases lo1 with
        | early st1 b1 =>
          simp only [Option.some.injEq] at h
          subst h
          exact hab
        | done b1 =>
          exact AppendOnlyPos.trans hab (ih b1 lo h)

/-- Starting from the cleared (empty) output, `AppendOnlyPos` means every
element has strictly positive area. -/
theorem AppendOnlyPos_nil (out : List StGraphBoundary)
    (h : AppendOnlyPos [] out) : ∀ b ∈ out, 0 < get_area b.points :=
  fun b hb => (h b hb).resolve_left (by simp)

/-- Claim C4 (confirmed).  Every `StGraphBoundary` present in the output of
the post-precondition body of `get_graph_boundary` — appended by the stop,
mission-complete, or dynamic builder (the output starts cleared) — has
strictly positive `get_area`; a non-positive-area polygon is never
emitted. -/
theorem c4_emitted_boundaries_have_positive_area (B : QpSplineStBoundaryMapper) (fuel : ℕ)
    (ipp : TrajectoryPoint) (dd : DecisionData) (pathd : PathData)
    (rl : ReferenceLine) (pd pt : ℚ) (st : Status)
    (out : List StGraphBoundary)
    (h : get_graph_boundary_body B fuel ipp dd pathd rl pd pt =
      some (st, out)) :
    ∀ b ∈ out, 0 < get_area b.points := by
  simp only [get_graph_boundary_body] at h
  set M := (match dd.main_decision with
    | MainDecision.stop ms => B.map_main_decision_stop ms rl pd pt []
    | MainDecision.mission_complete => B.map_mission_complete rl pd pt []
    | MainDecision.other => (Status.OK, [])) with hM
  have hmainM : AppendOnlyPos [] M.2 := by
    cases hmd : dd.main_decision with
    | stop ms =>
      exact map_main_decision_stop_AppendOnlyPos B ms rl pd pt [] M
        (by rw [hM, hmd])
    | mission_complete =>
      exact map_mission_complete_AppendOnlyPos B rl pd pt [] M
        (by rw [hM, hmd])
    | other =>
      have : M = (Status.OK, []) := by rw [hM, hmd]
      rw [this]
      exact AppendOnlyPos.rfl
  rw [static_loop_done] at h
  split_ifs at h with hbad
  · simp only [Option.some.injEq, Prod.mk.injEq] at h
    exact h.2 ▸ AppendOnlyPos_nil M.2 hmainM
  · simp only [] at h
    cases hdl : dynamic_loop B fuel ipp pathd pd pt M.2
      dd.DynamicObstacles with
    | none =>
      simp only [hdl] at h
      exact Option.noConfusion h
    | some lo =>
      simp only [hdl] at h
      have hd2 := dynamic_loop_AppendOnlyPos B fuel ipp pathd pd pt
        dd.DynamicObstacles M.2 lo hdl
      cases lo with
      | early st1 b1 =>
        simp only [Option.some.injEq, Prod.mk.injEq] at h
        exact h.2 ▸ AppendOnlyPos_nil b1 (AppendOnlyPos.trans hmainM hd2)
      | done b1 =>
        simp only [Option.some.injEq, Prod.mk.injEq] at h
        exact h.2 ▸ AppendOnlyPos_nil b1 (AppendOnlyPos.trans hmainM hd2)

/-- Witness for C4: in a concrete scene whose main decision is a stop, the
body emits exactly the `stopOut0` boundary, and the theorem yields its
positive area. -/
theorem c4_emitted_boundaries_have_positive_area_witness :
    0 < get_area (stopOut0.headD default).points := by
  have h0 : B0.map_main_decision_stop ms0 rl100 60 3 [] =
      (Status.OK, stopOut0) := by
    norm_num [QpSplineStBoundaryMapper.map_main_decision_stop, B0, cfg0,
      vp0, flags0, ms0, rl100, doubleCompare, get_area, crossSum, stopOut0]
  have hb : get_graph_boundary_body B0 10 ipp0 ⟨.stop ms0, [], []⟩ path2
      rl100 60 3 = some (.OK, stopOut0) := by
    simp only [get_graph_boundary_body, h0, static_loop, dynamic_loop]
    simp
  exact c4_emitted_boundaries_have_positive_area B0 10 ipp0 ⟨.stop ms0, [], []⟩ path2 rl100 60 3 .OK stopOut0
    hb (stopOut0.headD default) (by simp [stopOut0])
